import Mathlib

/-!
Verification of the phantom squad orchestration core.

This file gives a shallow embedding of the squad components:

* `TmuxManager` (packages/core/src/squad/tmuxManager.ts): pane allocation,
  split directions, layout application, key forwarding, session lifecycle.
* `AgentToolFactory` (squad/tools.ts): the send_message messaging tool and
  its escaping function.
* `ClaudeSessionManager` (claude/session.ts): session-token persistence.
* `AgentOrchestrator` (squad/orchestrator.ts): setupTeam control flow.

External processes (tmux invocations) are modelled by an oracle
`SpawnEnv : List String → Bool` that decides whether each spawned command
succeeds; each operation additionally returns the list of commands it
spawned, so that "primitive X was never invoked" is expressible.  The
filesystem used by the session manager is modelled as an association list
from paths to file contents.  `Date` timestamps are omitted from the
embedded records because no claim mentions them.
-/

namespace Phantom

/-- Agent from the squad configuration (config/validate.ts): a name, a
prompt path and the worktree-isolation flag. -/
structure Agent where
  name : String
  prompt : String
  worktree : Bool
deriving DecidableEq, Repr

/-- SquadConfig (config/validate.ts): an ordered list of agents plus the
layout mode string ("auto", "grid" or "main-vertical"). -/
structure SquadConfig where
  agents : List Agent
  layout : String
deriving DecidableEq, Repr

/-- PaneInfo (tmuxManager.ts). -/
structure PaneInfo where
  id : String
  agentName : String
  index : Nat
deriving DecidableEq, Repr

/-- The mutable fields of a `TmuxManager` instance: the session name, the
`paneMapping : Map<string, PaneInfo>` (as an insertion-ordered association
list) and the `currentPaneIndex` counter. -/
structure TmuxState where
  sessionName : String
  paneMapping : List (String × PaneInfo)
  currentPaneIndex : Nat
deriving DecidableEq, Repr

/-- Oracle deciding whether a spawned process (given its argument list)
exits successfully.  Models `spawnProcess` from @aku11i/phantom-process. -/
abbrev SpawnEnv := List String → Bool

/-- `Map.set` semantics of a JavaScript `Map` backed by an association
list: an existing key is overwritten in place, a new key is appended. -/
def mapSet {α : Type} (m : List (String × α)) (k : String) (v : α) :
    List (String × α) :=
  if m.any (fun p => p.1 == k) then
    m.map (fun p => if p.1 == k then (k, v) else p)
  else
    m ++ [(k, v)]

/-- `Map.get` semantics. -/
def mapGet {α : Type} (m : List (String × α)) (k : String) : Option α :=
  match m.find? (fun p => p.1 == k) with
  | some p => some p.2
  | none => none

/-- Split directions of @aku11i/phantom-process used by `createPane`. -/
inductive TmuxSplitDirection where
  | vertical
  | horizontal
deriving DecidableEq, Repr

/-- `TmuxManager.getSplitDirection` (tmuxManager.ts lines 172-194):
switch on the layout string; the `"auto"` case and the `default` case of
the switch share one body. -/
def getSplitDirection (layout : String) (index totalAgents : Nat) :
    TmuxSplitDirection :=
  if layout = "grid" then
    if index % 2 = 1 then .horizontal else .vertical
  else if layout = "main-vertical" then
    if index = 1 then .vertical else .horizontal
  else
    if totalAgents ≤ 2 then .vertical
    else if totalAgents ≤ 4 then
      if index % 2 = 1 then .vertical else .horizontal
    else
      if index % 3 = 1 then .vertical else .horizontal

/-- Error type of the tmux manager: `TmuxSessionError` (with its message)
or a `ProcessError` from a failed spawned command (recorded by the argument
list of the failing command). -/
inductive TmuxErr where
  | sessionFailure (msg : String)
  | processFailed (args : List String)
deriving DecidableEq, Repr

/-- Arguments of the `createNewSession` spawn
(`tmux new-session -d -s <session> bash`). -/
def newSessionArgs (st : TmuxState) : List String :=
  ["new-session", "-d", "-s", st.sessionName, "bash"]

/-- Arguments of the split spawned by `createPane` for a given direction. -/
def splitWindowArgs (d : TmuxSplitDirection) (session : String) :
    List String :=
  match d with
  | .vertical => ["split-window", "-v", "-t", session, "bash"]
  | .horizontal => ["split-window", "-h", "-t", session, "bash"]

/-- tmux layout name chosen by `applyLayout` (tmuxManager.ts lines
199-227); the `"auto"`/default branch distinguishes ≤2 / ≤4 / more agents
(the last two both giving "tiled", as in the source). -/
def applyLayoutName (layout : String) (agentCount : Nat) : String :=
  if layout = "grid" then "tiled"
  else if layout = "main-vertical" then "main-vertical"
  else
    if agentCount ≤ 2 then "even-horizontal"
    else if agentCount ≤ 4 then "tiled"
    else "tiled"

/-- Arguments of the `applyLayout` spawn
(`tmux select-layout -t <session> <layout>`). -/
def selectLayoutArgs (st : TmuxState) (layout : String) (agentCount : Nat) :
    List String :=
  ["select-layout", "-t", st.sessionName, applyLayoutName layout agentCount]

/-- The `for` loop of `createLayout` over the agents after the first one,
inlining `createPane` (tmuxManager.ts lines 129-167): each iteration
computes the split direction from `(layout, i, totalAgents)`, spawns the
split, and on success registers a pane whose id and index come from the
`currentPaneIndex` counter; a spawn failure aborts with that error.
Returns the spawned commands, the final state and the panes. -/
def createPanes (env : SpawnEnv) (layout : String) (totalAgents : Nat) :
    List Agent → Nat → TmuxState →
    List (List String) × TmuxState × Except TmuxErr (List PaneInfo)
  | [], _, st => ([], st, Except.ok [])
  | a :: rest, i, st =>
    let args := splitWindowArgs (getSplitDirection layout i totalAgents)
      st.sessionName
    if env args then
      let pane : PaneInfo :=
        ⟨Nat.repr st.currentPaneIndex, a.name, st.currentPaneIndex⟩
      let st1 : TmuxState :=
        { st with paneMapping := mapSet st.paneMapping a.name pane,
                  currentPaneIndex := st.currentPaneIndex + 1 }
      let r := createPanes env layout totalAgents rest (i + 1) st1
      (args :: r.1, r.2.1,
        match r.2.2 with
        | Except.ok ps => Except.ok (pane :: ps)
        | Except.error e => Except.error e)
    else
      ([args], st, Except.error (TmuxErr.processFailed args))

/-- `TmuxManager.createLayout` (tmuxManager.ts lines 55-101): reject an
empty agent list, spawn the new session, register the first pane with id
"0" and index 0 and set `currentPaneIndex` to 1, create the remaining
panes in a loop, then apply the final tiling layout. -/
def createLayout (env : SpawnEnv) (st : TmuxState) (cfg : SquadConfig) :
    List (List String) × TmuxState × Except TmuxErr (List PaneInfo) :=
  match cfg.agents with
  | [] =>
    ([], st,
      Except.error (TmuxErr.sessionFailure "No agents specified in configuration"))
  | firstAgent :: rest =>
    if env (newSessionArgs st) then
      let firstPane : PaneInfo := ⟨"0", firstAgent.name, 0⟩
      let st1 : TmuxState :=
        { st with paneMapping := mapSet st.paneMapping firstAgent.name firstPane,
                  currentPaneIndex := 1 }
      let r := createPanes env cfg.layout (rest.length + 1) rest 1 st1
      match r.2.2 with
      | Except.error e => (newSessionArgs st :: r.1, r.2.1, Except.error e)
      | Except.ok ps =>
        let aArgs := selectLayoutArgs st cfg.layout (rest.length + 1)
        if env aArgs then
          (newSessionArgs st :: r.1 ++ [aArgs], r.2.1,
            Except.ok (firstPane :: ps))
        else
          (newSessionArgs st :: r.1 ++ [aArgs], r.2.1,
            Except.error (TmuxErr.processFailed aArgs))
    else
      ([newSessionArgs st], st,
        Except.error (TmuxErr.processFailed (newSessionArgs st)))

/-- `TmuxManager.getAllPanes`: the values of the pane mapping. -/
def getAllPanes (st : TmuxState) : List PaneInfo :=
  st.paneMapping.map Prod.snd

/-- `TmuxManager.getPaneByAgentName`. -/
def getPaneByAgentName (st : TmuxState) (agentName : String) :
    Option PaneInfo :=
  mapGet st.paneMapping agentName

/-- `TmuxManager.sendKeys` (tmuxManager.ts lines 232-243): look the pane
id up among the mapping values; if absent fail with a "pane not found"
session error, otherwise spawn `send-keys` with the text followed by the
literal "Enter" key. -/
def sendKeys (env : SpawnEnv) (st : TmuxState) (paneId keys : String) :
    List (List String) × Except TmuxErr Unit :=
  match (getAllPanes st).find? (fun pane => pane.id == paneId) with
  | none =>
    ([], Except.error
      (TmuxErr.sessionFailure ("Pane with ID " ++ paneId ++ " not found")))
  | some _ =>
    let args :=
      ["send-keys", "-t", st.sessionName ++ ":" ++ paneId, keys, "Enter"]
    if env args then ([args], Except.ok ())
    else ([args], Except.error (TmuxErr.processFailed args))

/-- Arguments of the `checkExistingSession` probe. -/
def hasSessionArgs (st : TmuxState) : List String :=
  ["has-session", "-t", st.sessionName]

/-- `TmuxManager.checkExistingSession` (tmuxManager.ts lines 269-277):
spawn `tmux has-session` and wrap the boolean outcome of the probe in a
success result — including when the probe itself fails. -/
def checkExistingSession (env : SpawnEnv) (st : TmuxState) :
    List (List String) × Except TmuxErr Bool :=
  ([hasSessionArgs st], Except.ok (env (hasSessionArgs st)))

/-- Arguments of the `attachToSession` spawn. -/
def attachArgs (st : TmuxState) : List String :=
  ["attach-session", "-t", st.sessionName]

/-- `TmuxManager.attachToSession`. -/
def attachToSession (env : SpawnEnv) (st : TmuxState) :
    List (List String) × Except TmuxErr Unit :=
  if env (attachArgs st) then ([attachArgs st], Except.ok ())
  else ([attachArgs st], Except.error (TmuxErr.processFailed (attachArgs st)))

/-- Arguments of the `killSession` spawn. -/
def killArgs (st : TmuxState) : List String :=
  ["kill-session", "-t", st.sessionName]

/-- `TmuxManager.killSession` (tmuxManager.ts lines 292-305): spawn
`tmux kill-session`; on success clear the pane mapping and reset the pane
index counter, on failure leave the state untouched. -/
def killSession (env : SpawnEnv) (st : TmuxState) :
    List (List String) × TmuxState × Except TmuxErr Unit :=
  if env (killArgs st) then
    ([killArgs st], { st with paneMapping := [], currentPaneIndex := 0 },
      Except.ok ())
  else
    ([killArgs st], st, Except.error (TmuxErr.processFailed (killArgs st)))

/-! Decimal representation helpers: a fuel-free version of the digit list
produced by `Nat.repr`, together with a decoding function, giving that
`Nat.repr` is injective (needed for distinctness of pane ids). -/

/-- The list of decimal digit characters of `n`, most significant first. -/
def digitsRepr (n : Nat) : List Char :=
  if _h : n < 10 then [Nat.digitChar n]
  else digitsRepr (n / 10) ++ [Nat.digitChar (n % 10)]
termination_by n
decreasing_by
  exact Nat.div_lt_self (by omega) (by omega)

theorem digitsRepr_lt {n : Nat} (h : n < 10) :
    digitsRepr n = [Nat.digitChar n] := by
  rw [digitsRepr, dif_pos h]

theorem digitsRepr_ge {n : Nat} (h : ¬ n < 10) :
    digitsRepr n = digitsRepr (n / 10) ++ [Nat.digitChar (n % 10)] := by
  rw [digitsRepr, dif_neg h]

theorem toDigitsCore_eq_digitsRepr :
    ∀ (fuel n : Nat) (acc : List Char), n < fuel →
      Nat.toDigitsCore 10 fuel n acc = digitsRepr n ++ acc := by
  intro fuel
  induction fuel with
  | zero => intro n acc h; omega
  | succ f ih =>
    intro n acc h
    by_cases h10 : n / 10 = 0
    · have hn : n < 10 := by omega
      simp only [Nat.toDigitsCore, h10, if_pos, digitsRepr_lt hn,
        Nat.mod_eq_of_lt hn, List.cons_append, List.nil_append]
    · have hn : ¬ n < 10 := by omega
      have hf : n / 10 < f := by omega
      simp only [Nat.toDigitsCore, h10, ih (n / 10) _ hf,
        digitsRepr_ge hn, List.append_assoc, List.cons_append,
        List.nil_append, if_false, ite_false]

theorem repr_eq_digitsRepr (n : Nat) :
    Nat.repr n = (digitsRepr n).asString := by
  show (Nat.toDigits 10 n).asString = _
  rw [Nat.toDigits, toDigitsCore_eq_digitsRepr (n + 1) n [] (Nat.lt_succ_self n),
    List.append_nil]

/-- Decimal value of a digit character. -/
def decDigit (c : Char) : Nat := c.toNat - 48

theorem decDigit_digitChar : ∀ d : Nat, d < 10 →
    decDigit (Nat.digitChar d) = d := by decide

theorem foldl_digitsRepr (n : Nat) :
    ∀ a : Nat,
      List.foldl (fun a c => a * 10 + decDigit c) a (digitsRepr n) =
        a * 10 ^ (digitsRepr n).length + n := by
  induction n using Nat.strong_induction_on with
  | _ n ih =>
    intro a
    by_cases h : n < 10
    · rw [digitsRepr_lt h]
      simp [decDigit_digitChar n h]
    · have hdiv : n / 10 < n := Nat.div_lt_self (by omega) (by omega)
      rw [digitsRepr_ge h, List.foldl_append, ih (n / 10) hdiv a]
      simp only [List.foldl_cons, List.foldl_nil, List.length_append,
        List.length_cons, List.length_nil]
      rw [decDigit_digitChar (n % 10) (Nat.mod_lt n (by omega))]
      have hmod : 10 * (n / 10) + n % 10 = n := Nat.div_add_mod n 10
      calc (a * 10 ^ (digitsRepr (n / 10)).length + n / 10) * 10 + n % 10
          = a * (10 ^ (digitsRepr (n / 10)).length * 10) +
              (10 * (n / 10) + n % 10) := by ring
        _ = a * 10 ^ ((digitsRepr (n / 10)).length + (0 + 1)) + n := by
              rw [hmod]; ring

/-- Decode a decimal digit string back to the number. -/
def decDigits (l : List Char) : Nat :=
  l.foldl (fun a c => a * 10 + decDigit c) 0

theorem decDigits_digitsRepr (n : Nat) : decDigits (digitsRepr n) = n := by
  simpa [decDigits] using foldl_digitsRepr n 0

theorem natRepr_injective : Function.Injective Nat.repr := by
  intro m n h
  rw [repr_eq_digitsRepr, repr_eq_digitsRepr] at h
  have hdata : digitsRepr m = digitsRepr n := by
    have := congrArg String.data h
    simpa [List.asString] using this
  have := congrArg decDigits hdata
  rwa [decDigits_digitsRepr, decDigits_digitsRepr] at this

/-! ClaudeSessionManager (claude/session.ts): session-token persistence
over a filesystem modelled as an association list from paths to file
contents. -/

/-- Error kinds of the session manager, with the full message produced by
the corresponding Error subclass constructor (which prepends a fixed
phrase to the message given at the raise site). -/
inductive ClaudeSessionErr where
  | fileFailure (msg : String)
  | parseFailure (msg : String)
  | spawnFailure (msg : String)
deriving DecidableEq, Repr

/-- Configuration of `ClaudeSessionManager` (the timeout only matters for
process spawning, which no persistence claim touches). -/
structure ClaudeSessionConfig where
  sessionDirectory : String
deriving DecidableEq, Repr

/-- `ClaudeSessionManager.getSessionFilePath`:
`join(sessionDirectory, sessionName + ".session")`. -/
def getSessionFilePath (cfg : ClaudeSessionConfig) (sessionName : String) :
    String :=
  cfg.sessionDirectory ++ "/" ++ sessionName ++ ".session"

/-- `ClaudeSessionManager.saveSession` (session.ts lines 440-463): ensure
the directory exists and write the raw token to the session file.  In the
pure filesystem model the write always succeeds. -/
def saveSession (cfg : ClaudeSessionConfig) (fs : List (String × String))
    (sessionName sessionId : String) :
    List (String × String) × Except ClaudeSessionErr Unit :=
  (mapSet fs (getSessionFilePath cfg sessionName) sessionId, Except.ok ())

/-- JavaScript `String.prototype.trim` on the most common whitespace
characters (space, newline, tab, carriage return). -/
def isJsSpace (c : Char) : Bool :=
  c == ' ' || c == '\n' || c == '\t' || c == '\r'

/-- Character-list trim used to model `content.trim()`. -/
def trimChars (l : List Char) : List Char :=
  ((l.dropWhile isJsSpace).reverse.dropWhile isJsSpace).reverse

/-- String trim on the model characters. -/
def strTrim (s : String) : String := String.mk (trimChars s.data)

/-- The validation regex `/^sess-[a-zA-Z0-9]+$/` of
`loadExistingSession`: the literal "sess-" followed by a non-empty
alphanumeric suffix. -/
def matchesSessionIdFormat (s : String) : Bool :=
  match s.data with
  | 's' :: 'e' :: 's' :: 's' :: '-' :: rest =>
    !rest.isEmpty && rest.all Char.isAlphanum
  | _ => false

/-- `ClaudeSessionManager.loadExistingSession` (session.ts lines 469-500):
a missing file is a `ClaudeSessionFileError`; otherwise the trimmed
content must be non-empty and match the token pattern, else a
`ClaudeSessionParseError`. -/
def loadExistingSession (cfg : ClaudeSessionConfig)
    (fs : List (String × String)) (sessionName : String) :
    Except ClaudeSessionErr String :=
  match mapGet fs (getSessionFilePath cfg sessionName) with
  | none =>
    Except.error (ClaudeSessionErr.fileFailure
      ("Session file operation failed: Session file not found: " ++
        getSessionFilePath cfg sessionName))
  | some content =>
    if strTrim content = "" ∨ matchesSessionIdFormat (strTrim content) = false then
      Except.error (ClaudeSessionErr.parseFailure
        ("Failed to parse session ID: Invalid session ID format: " ++
          strTrim content))
    else
      Except.ok (strTrim content)

/-- `ClaudeSessionManager.buildCommandString` (session.ts lines 431-434). -/
def buildCommandString (sessionId : String) (agentName : Option String) :
    String :=
  match agentName with
  | some a => "claude code --session " ++ sessionId ++ " --agent " ++ a
  | none => "claude code --session " ++ sessionId

/-! AgentToolFactory (squad/tools.ts): message escaping and the
send_message tool. -/

/-- One pass of a global single-character regex replacement
(`message.replace(/c/g, r)`) on the character list. -/
def replaceAllChars (c : Char) (r : List Char) : List Char → List Char
  | [] => []
  | a :: as => (if a = c then r else [a]) ++ replaceAllChars c r as

/-- Global single-character replacement on strings. -/
def replaceAllChar (c : Char) (r : String) (s : String) : String :=
  String.mk (replaceAllChars c r.data s.data)

/-- The replacement text for a single quote: the end-quote/escaped-quote/
reopen-quote sequence `'"'"'`. -/
def quoteEsc : String := "\x27\x22\x27\x22\x27"

/-- `AgentToolFactory.escapeMessage` (tools.ts lines 133-139): first
replace every single quote by `quoteEsc`, then every newline by the
two-character sequence backslash-n. -/
def escapeMessage (m : String) : String :=
  replaceAllChar '\n' "\\n" (replaceAllChar '\x27' quoteEsc m)

/-- Per-character description of the combined effect of the two
replacement passes of `escapeMessage`. -/
def escChar (a : Char) : List Char :=
  if a = '\x27' then quoteEsc.data
  else if a = '\n' then ['\\', 'n']
  else [a]

/-- Helper for first-occurrence deduplication: keep the elements not yet
seen, in order. -/
def dedupFirstAux (seen : List String) : List String → List String
  | [] => []
  | a :: as =>
    if a ∈ seen then dedupFirstAux seen as
    else a :: dedupFirstAux (a :: seen) as

/-- First-occurrence deduplication: the iteration order of a JavaScript
`Set` filled from a list. -/
def dedupFirst (l : List String) : List String := dedupFirstAux [] l

/-- `AgentToolFactory.updateAvailableAgents`/`getAvailableAgents`: the set
of agent names of the current panes, in first-insertion order. -/
def availableAgents (st : TmuxState) : List String :=
  dedupFirst ((getAllPanes st).map PaneInfo.agentName)

/-- Error type of the messaging tool: an `AgentToolError` or a forwarded
tmux error. -/
inductive AgentErr where
  | toolFailure (msg : String)
  | tmuxFailure (e : TmuxErr)
deriving DecidableEq, Repr

/-- `SendMessageResult` (tools.ts), without the `Date` timestamp. -/
structure SendMessageResult where
  targetAgent : String
  message : String
  success : Bool
deriving DecidableEq, Repr

/-- `AgentToolFactory.sendMessage` (tools.ts lines 75-127): validate both
arguments, refresh the available-agent set from the pane mapping, fail on
an unknown agent with an error listing the known agents, then escape the
message and forward it with `sendKeys`.  Returns the spawned commands and
the result. -/
def sendMessage (env : SpawnEnv) (st : TmuxState)
    (agentName message : String) :
    List (List String) × Except AgentErr SendMessageResult :=
  if agentName = "" then
    ([], Except.error (AgentErr.toolFailure "Agent name must be a non-empty string"))
  else if message = "" then
    ([], Except.error (AgentErr.toolFailure "Message must be a non-empty string"))
  else
    let avail := availableAgents st
    if agentName ∈ avail then
      match getPaneByAgentName st agentName with
      | none =>
        ([], Except.error (AgentErr.toolFailure
          ("Pane information for agent \x22" ++ agentName ++ "\x22 not found")))
      | some paneInfo =>
        let escaped := escapeMessage message
        let r := sendKeys env st paneInfo.id escaped
        (r.1,
          match r.2 with
          | Except.ok _ => Except.ok ⟨agentName, message, true⟩
          | Except.error e => Except.error (AgentErr.tmuxFailure e))
    else
      ([], Except.error (AgentErr.toolFailure
        ("Agent \x22" ++ agentName ++ "\x22 not found. Available agents: " ++
          String.intercalate ", " avail)))

/-! AgentOrchestrator (squad/orchestrator.ts). -/

/-- Orchestrator errors; the message strings include the prefix added by
the corresponding Error subclass (`TmuxSetupError` prepends
"Tmux setup failed: ", `WorktreeSetupError` prepends
"Worktree setup failed: "). -/
inductive OrchError where
  | tmuxSetup (msg : String)
  | worktreeSetup (msg : String)
deriving DecidableEq, Repr

/-- `AgentStatus` (squad/types.ts), without the `Date` lastActivity. -/
structure AgentStatus where
  name : String
  paneId : String
  status : String
deriving DecidableEq, Repr

/-- `SetupTeamResult` (orchestrator.ts). -/
structure SetupTeamResult where
  sessionName : String
  panes : List PaneInfo
  agents : List AgentStatus
  isResumed : Bool
  createdWorktrees : List String
deriving DecidableEq, Repr

/-- Oracle for the external `createWorktree` primitive of the Isolation
Provisioner: agent name (used as worktree and branch name) to either an
error message or the created path.  The `gitRoot`, `worktreeDirectory`
and `\x7bbranch, base: "HEAD"\x7d` arguments of the call are fixed per
run and folded into the oracle. -/
abbrev WorktreeEnv := String → Except String String

/-- The sequential worktree-creation loop of
`AgentOrchestrator.setupWorktrees` (orchestrator.ts lines 790-817).
Returns the names passed to `createWorktree` (the call trace) and either
the created paths or the first error. -/
def setupWorktreesLoop (wt : WorktreeEnv) :
    List Agent → List String × Except OrchError (List String)
  | [] => ([], Except.ok [])
  | a :: rest =>
    match wt a.name with
    | Except.error m =>
      ([a.name], Except.error (OrchError.worktreeSetup
        ("Worktree setup failed: Failed to create worktree for agent \x22" ++
          a.name ++ "\x22: " ++ m)))
    | Except.ok path =>
      let r := setupWorktreesLoop wt rest
      (a.name :: r.1,
        match r.2 with
        | Except.ok paths => Except.ok (path :: paths)
        | Except.error e => Except.error e)

/-- `AgentOrchestrator.setupWorktrees` (orchestrator.ts lines 778-835):
filter the agents with `worktree: true`; when none needs isolation return
an empty list without touching git, otherwise run the sequential loop.
(`getGitRoot` and the best-effort `cleanupWorktrees` on failure — which
only logs a warning — have no effect in the model.) -/
def setupWorktrees (wt : WorktreeEnv) (agents : List Agent) :
    List String × Except OrchError (List String) :=
  let worktreeAgents := agents.filter (fun a => a.worktree)
  if worktreeAgents.isEmpty then ([], Except.ok [])
  else setupWorktreesLoop wt worktreeAgents

/-- `panes[index]?.id || "0"` from the agent-status construction. -/
def paneIdOr0 (panes : List PaneInfo) (i : Nat) : String :=
  match panes.get? i with
  | some p => if p.id = "" then "0" else p.id
  | none => "0"

/-- `AgentOrchestrator.setupTeam` (orchestrator.ts lines 688-773),
composed with the embedded `TmuxManager` operations over the spawn
oracle: check for an existing session (step 1) and on the resume path
attach and return the current pane mapping with `isResumed = true`;
otherwise create worktrees (step 2), create the layout (step 3, killing
the session on failure), and mark every agent `stopped` (step 4 is the
documented launch stub).  Returns the `createWorktree` call trace, the
final tmux state and the result. -/
def setupTeam (env : SpawnEnv) (wt : WorktreeEnv) (st : TmuxState)
    (squadConfig : SquadConfig) (sessionName : String) :
    List String × TmuxState × Except OrchError SetupTeamResult :=
  match (checkExistingSession env st).2 with
  | Except.error _ =>
    ([], st, Except.error (OrchError.tmuxSetup
      "Tmux setup failed: Failed to check existing tmux session"))
  | Except.ok sessionPresent =>
    if sessionPresent then
      match (attachToSession env st).2 with
      | Except.error _ =>
        ([], st, Except.error (OrchError.tmuxSetup
          "Tmux setup failed: Failed to attach to existing session"))
      | Except.ok _ =>
        ([], st, Except.ok
          ⟨sessionName, getAllPanes st, [], true, []⟩)
    else
      let w := setupWorktrees wt squadConfig.agents
      match w.2 with
      | Except.error e => (w.1, st, Except.error e)
      | Except.ok createdWorktrees =>
        let l := createLayout env st squadConfig
        match l.2.2 with
        | Except.error _ =>
          let k := killSession env l.2.1
          (w.1, k.2.1, Except.error (OrchError.tmuxSetup
            "Tmux setup failed: Failed to create tmux layout"))
        | Except.ok panes =>
          let agents : List AgentStatus :=
            squadConfig.agents.mapIdx
              (fun i a => ⟨a.name, paneIdOr0 panes i, "stopped"⟩)
          (w.1, l.2.1, Except.ok
            ⟨sessionName, panes, agents, false, createdWorktrees⟩)

/-! Example environments and states used by the witnesses. -/

/-- Spawn oracle where every spawned command succeeds. -/
def envAllOk : SpawnEnv := fun _ => true

/-- Spawn oracle where every spawned command fails. -/
def envAllFail : SpawnEnv := fun _ => false

/-- A demo tmux state with two panes registered. -/
def stDemo : TmuxState :=
  ⟨"demo", [("manager", ⟨"0", "manager", 0⟩), ("tester", ⟨"2", "tester", 2⟩)], 3⟩

/-- C2: the split-direction function is a pure function of
`(layoutMode, index, totalAgents)` (it is a Lean function of exactly these
arguments), and: auto with 2 agents at index 1 is vertical; grid with 4
agents is horizontal at index 1 and vertical at index 2; main-vertical is
vertical at index 1 and horizontal at every larger index; auto with at
least 5 agents is vertical exactly when `index % 3 = 1`; any mode other
than grid/main-vertical behaves like auto. -/
theorem c2_getSplitDirection_cases :
    getSplitDirection "auto" 1 2 = TmuxSplitDirection.vertical ∧
    getSplitDirection "grid" 1 4 = TmuxSplitDirection.horizontal ∧
    getSplitDirection "grid" 2 4 = TmuxSplitDirection.vertical ∧
    (∀ t : Nat, getSplitDirection "main-vertical" 1 t = TmuxSplitDirection.vertical) ∧
    (∀ i t : Nat, 1 < i →
      getSplitDirection "main-vertical" i t = TmuxSplitDirection.horizontal) ∧
    (∀ i t : Nat, 5 ≤ t →
      (getSplitDirection "auto" i t = TmuxSplitDirection.vertical ↔ i % 3 = 1)) ∧
    (∀ (layout : String) (i t : Nat), layout ≠ "grid" → layout ≠ "main-vertical" →
      getSplitDirection layout i t = getSplitDirection "auto" i t) := by
  refine ⟨by decide, by decide, by decide, ?_, ?_, ?_, ?_⟩
  · intro t
    simp [getSplitDirection]
  · intro i t h
    simp [getSplitDirection]
    omega
  · intro i t ht
    rw [getSplitDirection, if_neg (by decide), if_neg (by decide),
      if_neg (by omega), if_neg (by omega)]
    by_cases h : i % 3 = 1 <;> simp [h]
  · intro layout i t h1 h2
    simp [getSplitDirection, h1, h2]

/-- Witness for C2 at concrete inputs. -/
theorem c2_witness :
    getSplitDirection "main-vertical" 1 9 = TmuxSplitDirection.vertical ∧
    getSplitDirection "main-vertical" 3 9 = TmuxSplitDirection.horizontal ∧
    (getSplitDirection "auto" 7 6 = TmuxSplitDirection.vertical ↔ 7 % 3 = 1) ∧
    getSplitDirection "weird" 2 3 = getSplitDirection "auto" 2 3 :=
  ⟨c2_getSplitDirection_cases.2.2.2.1 9,
    c2_getSplitDirection_cases.2.2.2.2.1 3 9 (by decide),
    c2_getSplitDirection_cases.2.2.2.2.2.1 7 6 (by decide),
    c2_getSplitDirection_cases.2.2.2.2.2.2 "weird" 2 3 (by decide) (by decide)⟩

/-- C5: with an empty agent list `createLayout` fails immediately: no
command at all is spawned (in particular the session-creation primitive is
never invoked) and the state — hence the pane mapping — is unchanged. -/
theorem c5_createLayout_empty_agents (env : SpawnEnv) (st : TmuxState)
    (cfg : SquadConfig) (h : cfg.agents = []) :
    createLayout env st cfg =
      ([], st, Except.error
        (TmuxErr.sessionFailure "No agents specified in configuration")) := by
  rcases cfg with ⟨agents, layout⟩
  simp only at h
  subst h
  rfl

/-- Witness for C5: a concrete empty configuration. -/
theorem c5_witness :
    createLayout envAllOk stDemo ⟨[], "auto"⟩ =
      ([], stDemo, Except.error
        (TmuxErr.sessionFailure "No agents specified in configuration")) :=
  c5_createLayout_empty_agents envAllOk stDemo ⟨[], "auto"⟩ rfl

/-- C8: `sendKeys` on a pane id absent from the current mapping returns a
"pane not found" error value (the embedded function is total, mirroring
the absence of any throw in the source) and spawns nothing; on a present
id it spawns exactly one `send-keys` command carrying the text followed by
the literal "Enter" confirm key. -/
theorem c8_sendKeys_pane_lookup (env : SpawnEnv) (st : TmuxState)
    (paneId text : String) :
    ((∀ p ∈ getAllPanes st, p.id ≠ paneId) →
      sendKeys env st paneId text =
        ([], Except.error (TmuxErr.sessionFailure
          ("Pane with ID " ++ paneId ++ " not found")))) ∧
    ((∃ p ∈ getAllPanes st, p.id = paneId) →
      (sendKeys env st paneId text).1 =
        [["send-keys", "-t", st.sessionName ++ ":" ++ paneId, text, "Enter"]]) := by
  constructor
  · intro h
    have hf : (getAllPanes st).find? (fun pane => pane.id == paneId) = none := by
      rw [List.find?_eq_none]
      intro p hp
      simpa using h p hp
    simp [sendKeys, hf]
  · rintro ⟨p, hp, hid⟩
    have hs : ((getAllPanes st).find? (fun pane => pane.id == paneId)).isSome := by
      rw [List.find?_isSome]
      exact ⟨p, hp, by simp [hid]⟩
    obtain ⟨q, hq⟩ := Option.isSome_iff_exists.mp hs
    by_cases he : env ["send-keys", "-t", st.sessionName ++ ":" ++ paneId, text, "Enter"] <;>
      simp [sendKeys, hq, he]

/-- Witness for C8: in the demo state, id "1" is absent and id "2" is
present. -/
theorem c8_witness :
    sendKeys envAllOk stDemo "1" "hello" =
      ([], Except.error (TmuxErr.sessionFailure "Pane with ID 1 not found")) ∧
    (sendKeys envAllOk stDemo "2" "hello").1 =
      [["send-keys", "-t", "demo:2", "hello", "Enter"]] :=
  ⟨(c8_sendKeys_pane_lookup envAllOk stDemo "1" "hello").1 (by decide),
    (c8_sendKeys_pane_lookup envAllOk stDemo "2" "hello").2
      ⟨⟨"2", "tester", 2⟩, by decide, rfl⟩⟩

/-- C9: `killSession` clears the pane mapping and resets the pane-index
counter exactly when the kill command succeeds; when it fails the state is
returned unchanged. -/
theorem c9_killSession_state_reset (env : SpawnEnv) (st : TmuxState) :
    (env (killArgs st) = true →
      killSession env st = ([killArgs st],
        { st with paneMapping := [], currentPaneIndex := 0 }, Except.ok ())) ∧
    (env (killArgs st) = false →
      killSession env st = ([killArgs st], st,
        Except.error (TmuxErr.processFailed (killArgs st)))) := by
  constructor <;> intro h <;> simp [killSession, h]

/-- Witness for C9: both outcomes at the demo state. -/
theorem c9_witness :
    killSession envAllOk stDemo =
      ([["kill-session", "-t", "demo"]], ⟨"demo", [], 0⟩, Except.ok ()) ∧
    killSession envAllFail stDemo =
      ([["kill-session", "-t", "demo"]], stDemo,
        Except.error (TmuxErr.processFailed ["kill-session", "-t", "demo"])) :=
  ⟨(c9_killSession_state_reset envAllOk stDemo).1 rfl,
    (c9_killSession_state_reset envAllFail stDemo).2 rfl⟩

/-- Invariant of the pane-creation loop: on success the produced panes
carry consecutive indices starting at the incoming `currentPaneIndex`,
and each pane id is the decimal representation of its index. -/
theorem createPanes_ok (env : SpawnEnv) (layout : String) (total : Nat) :
    ∀ (rest : List Agent) (i : Nat) (st : TmuxState) (ps : List PaneInfo),
      (createPanes env layout total rest i st).2.2 = Except.ok ps →
      ps.map PaneInfo.index = List.range' st.currentPaneIndex rest.length ∧
      ps.map PaneInfo.id =
        (List.range' st.currentPaneIndex rest.length).map Nat.repr := by
  intro rest
  induction rest with
  | nil =>
    intro i st ps h
    simp only [createPanes] at h
    cases h
    simp
  | cons a as ih =>
    intro i st ps h
    simp only [createPanes] at h
    by_cases he : env (splitWindowArgs (getSplitDirection layout i total) st.sessionName)
    · rw [if_pos he] at h
      simp only at h
      set st1 : TmuxState :=
        { st with
          paneMapping := mapSet st.paneMapping a.name
            ⟨Nat.repr st.currentPaneIndex, a.name, st.currentPaneIndex⟩,
          currentPaneIndex := st.currentPaneIndex + 1 } with hst1
      cases hr : (createPanes env layout total as (i + 1) st1).2.2 with
      | error e => rw [hr] at h; cases h
      | ok ps' =>
        rw [hr] at h
        cases h
        have hih := ih (i + 1) st1 ps' hr
        have hcur : st1.currentPaneIndex = st.currentPaneIndex + 1 := rfl
        rw [hcur] at hih
        constructor
        · simp only [List.map_cons, hih.1, List.length_cons, List.range'_succ]
        · simp only [List.map_cons, hih.2, List.length_cons, List.range'_succ,
            List.map_cons]
    · rw [if_neg he] at h
      cases h

/-- C1: a successful `createLayout` run returns one pane per agent; the
pane indices are exactly `0, 1, ..., N-1` in order (hence strictly
increasing), the pane ids are the decimal strings of those indices and
are pairwise distinct, and the first agent receives index 0 and id "0". -/
theorem c1_createLayout_panes (env : SpawnEnv) (st : TmuxState)
    (cfg : SquadConfig) (panes : List PaneInfo)
    (h : (createLayout env st cfg).2.2 = Except.ok panes) :
    panes.length = cfg.agents.length ∧
    panes.map PaneInfo.index = List.range cfg.agents.length ∧
    panes.map PaneInfo.id = (List.range cfg.agents.length).map Nat.repr ∧
    (panes.map PaneInfo.id).Nodup ∧
    panes.head? = cfg.agents.head?.map (fun a => ⟨"0", a.name, 0⟩) := by
  rcases cfg with ⟨agents, layout⟩
  cases agents with
  | nil => simp [createLayout] at h
  | cons first rest =>
    simp only [createLayout] at h
    by_cases hn : env (newSessionArgs st)
    · rw [if_pos hn] at h
      set st1 : TmuxState :=
        { st with
          paneMapping := mapSet st.paneMapping first.name ⟨"0", first.name, 0⟩,
          currentPaneIndex := 1 } with hst1
      cases hr : (createPanes env layout (rest.length + 1) rest 1 st1).2.2 with
      | error e => rw [hr] at h; cases h
      | ok ps =>
        rw [hr] at h
        simp only at h
        by_cases ha : env (selectLayoutArgs st layout (rest.length + 1))
        · rw [if_pos ha] at h
          simp only at h
          cases h
          have hps := createPanes_ok env layout (rest.length + 1) rest 1 st1 ps hr
          have hcur : st1.currentPaneIndex = 1 := rfl
          rw [hcur] at hps
          have hlen : ps.length = rest.length := by
            have := congrArg List.length hps.1
            simpa using this
          have hidx : (⟨"0", first.name, 0⟩ :: ps).map PaneInfo.index =
              List.range (rest.length + 1) := by
            rw [List.range_eq_range', List.range'_succ]
            simp [hps.1]
          have hid : (⟨"0", first.name, 0⟩ :: ps).map PaneInfo.id =
              (List.range (rest.length + 1)).map Nat.repr := by
            rw [List.range_eq_range', List.range'_succ]
            simp only [List.map_cons, hps.2]
            congr 1
          refine ⟨by simpa using hlen, hidx, hid, ?_, rfl⟩
          · rw [hid]
            exact (List.nodup_range _).map natRepr_injective
        · rw [if_neg ha] at h
          simp only at h
          cases h
    · rw [if_neg hn] at h
      cases h

/-- A fresh tmux state with an empty pane mapping. -/
def stEmpty : TmuxState := ⟨"s", [], 0⟩

/-- A demo configuration with two agents in auto layout. -/
def cfgDemo : SquadConfig :=
  ⟨[⟨"developer", "./prompts/developer.md", true⟩,
    ⟨"reviewer", "./prompts/reviewer.md", false⟩], "auto"⟩

/-- The panes produced for `cfgDemo` when every spawn succeeds. -/
def panesDemo : List PaneInfo :=
  [⟨"0", "developer", 0⟩, ⟨"1", "reviewer", 1⟩]

/-- Witness for C1: a concrete successful two-agent run. -/
theorem c1_witness :
    (createLayout envAllOk stEmpty cfgDemo).2.2 = Except.ok panesDemo ∧
    (panesDemo.length = cfgDemo.agents.length ∧
      panesDemo.map PaneInfo.index = List.range cfgDemo.agents.length ∧
      panesDemo.map PaneInfo.id = (List.range cfgDemo.agents.length).map Nat.repr ∧
      (panesDemo.map PaneInfo.id).Nodup ∧
      panesDemo.head? = cfgDemo.agents.head?.map (fun a => ⟨"0", a.name, 0⟩)) :=
  ⟨rfl, c1_createLayout_panes envAllOk stEmpty cfgDemo panesDemo rfl⟩

/-- A `Map.set` followed by a `Map.get` of the same key retrieves the
stored value (overwrite branch). -/
theorem find?_overwrite {α : Type} (k : String) (v : α) :
    ∀ m : List (String × α), m.any (fun p => p.1 == k) = true →
      (m.map (fun p => if p.1 == k then (k, v) else p)).find?
        (fun p => p.1 == k) = some (k, v) := by
  intro m
  induction m with
  | nil => intro h; simp at h
  | cons p rest ih =>
    intro h
    by_cases hp : p.1 == k
    · simp only [List.map_cons, if_pos hp]
      exact List.find?_cons_of_pos _ (by simp)
    · have hr : rest.any (fun p => p.1 == k) = true := by
        simpa [List.any_cons, hp] using h
      simp only [List.map_cons, if_neg hp]
      rw [List.find?_cons_of_neg _ (by simpa using hp)]
      exact ih hr

/-- A `Map.set` followed by a `Map.get` of the same key retrieves the
stored value (fresh-key branch). -/
theorem find?_appendNew {α : Type} (k : String) (v : α) :
    ∀ m : List (String × α), m.any (fun p => p.1 == k) = false →
      ((m ++ [(k, v)]).find? (fun p => p.1 == k)) = some (k, v) := by
  intro m
  induction m with
  | nil => intro _; exact List.find?_cons_of_pos _ (by simp)
  | cons p rest ih =>
    intro h
    simp only [List.any_cons, Bool.or_eq_false_iff] at h
    rw [List.cons_append, List.find?_cons_of_neg _ (by simpa using h.1)]
    exact ih h.2

/-- `Map.get` after `Map.set` of the same key. -/
theorem mapGet_mapSet {α : Type} (m : List (String × α)) (k : String) (v : α) :
    mapGet (mapSet m k v) k = some v := by
  unfold mapGet mapSet
  by_cases h : m.any (fun p => p.1 == k)
  · rw [if_pos h, find?_overwrite k v m h]
  · have hf : m.any (fun p => p.1 == k) = false := by
      cases hx : m.any (fun p => p.1 == k)
      · rfl
      · exact absurd hx h
    rw [if_neg h, find?_appendNew k v m hf]

/-- C4: session persistence round-trips — saving "sess-abc123" under name
"s" and loading "s" returns "sess-abc123"; loading a name whose session
file does not exist fails with a `ClaudeSessionFileError`; loading a file
containing "not-a-token" fails with a `ClaudeSessionParseError`. -/
theorem c4_session_roundtrip :
    (∀ (cfg : ClaudeSessionConfig) (fs : List (String × String)),
      loadExistingSession cfg (saveSession cfg fs "s" "sess-abc123").1 "s" =
        Except.ok "sess-abc123") ∧
    (∀ (cfg : ClaudeSessionConfig) (fs : List (String × String)),
      mapGet fs (getSessionFilePath cfg "s") = none →
      loadExistingSession cfg fs "s" =
        Except.error (ClaudeSessionErr.fileFailure
          ("Session file operation failed: Session file not found: " ++
            getSessionFilePath cfg "s"))) ∧
    (∀ (cfg : ClaudeSessionConfig) (fs : List (String × String)),
      mapGet fs (getSessionFilePath cfg "s") = some "not-a-token" →
      loadExistingSession cfg fs "s" =
        Except.error (ClaudeSessionErr.parseFailure
          "Failed to parse session ID: Invalid session ID format: not-a-token")) := by
  refine ⟨?_, ?_, ?_⟩
  · intro cfg fs
    have hget := mapGet_mapSet fs (getSessionFilePath cfg "s") "sess-abc123"
    unfold loadExistingSession saveSession
    rw [hget]
    rfl
  · intro cfg fs h
    unfold loadExistingSession
    rw [h]
  · intro cfg fs h
    unfold loadExistingSession
    rw [h]
    rfl

/-- A demo session-manager configuration. -/
def csCfgDemo : ClaudeSessionConfig := ⟨"/sessions"⟩

/-- A session store holding a malformed token under name "s". -/
def fsBadToken : List (String × String) := [("/sessions/s.session", "not-a-token")]

/-- Witness for C4: all three behaviours at concrete stores. -/
theorem c4_witness :
    loadExistingSession csCfgDemo (saveSession csCfgDemo [] "s" "sess-abc123").1 "s" =
      Except.ok "sess-abc123" ∧
    loadExistingSession csCfgDemo [] "s" =
      Except.error (ClaudeSessionErr.fileFailure
        ("Session file operation failed: Session file not found: " ++
          getSessionFilePath csCfgDemo "s")) ∧
    loadExistingSession csCfgDemo fsBadToken "s" =
      Except.error (ClaudeSessionErr.parseFailure
        "Failed to parse session ID: Invalid session ID format: not-a-token") :=
  ⟨c4_session_roundtrip.1 csCfgDemo [],
    c4_session_roundtrip.2.1 csCfgDemo [] rfl,
    c4_session_roundtrip.2.2 csCfgDemo fsBadToken rfl⟩

/-- `replaceAllChars` distributes over list append. -/
theorem replaceAllChars_append (c : Char) (r : List Char) :
    ∀ l1 l2 : List Char,
      replaceAllChars c r (l1 ++ l2) =
        replaceAllChars c r l1 ++ replaceAllChars c r l2 := by
  intro l1 l2
  induction l1 with
  | nil => rfl
  | cons a as ih => simp [replaceAllChars, ih, List.append_assoc]

/-- A replacement pass leaves a list without the replaced character
unchanged. -/
theorem replaceAllChars_of_not_mem (c : Char) (r : List Char) :
    ∀ l : List Char, c ∉ l → replaceAllChars c r l = l := by
  intro l
  induction l with
  | nil => intro _; rfl
  | cons a as ih =>
    intro h
    simp only [List.mem_cons, not_or] at h
    have hac : ¬ a = c := fun hh => h.1 hh.symm
    simp [replaceAllChars, hac, ih h.2]

/-- The two replacement passes of `escapeMessage` act independently on
each character of the message: quotes become the quote-escape block,
newlines become backslash-n, everything else is untouched. -/
theorem escapeMessage_data (m : String) :
    (escapeMessage m).data = (m.data.map escChar).flatten := by
  show replaceAllChars '\n' "\\n".data
      (replaceAllChars '\x27' quoteEsc.data m.data) = _
  induction m.data with
  | nil => rfl
  | cons a as ih =>
    rw [replaceAllChars, replaceAllChars_append, ih, List.map_cons, List.flatten]
    congr 1
    by_cases hq : a = '\x27'
    · subst hq
      rw [if_pos rfl, replaceAllChars_of_not_mem _ _ _ (by decide)]
      rfl
    · rw [if_neg hq]
      by_cases hn : a = '\n'
      · subst hn
        rfl
      · rw [replaceAllChars, if_neg hn, replaceAllChars]
        simp [escChar, hq, hn]

/-- No single-character escape block contains a raw newline. -/
theorem newline_not_mem_escChar (a : Char) : '\n' ∉ escChar a := by
  unfold escChar
  by_cases hq : a = '\x27'
  · simp only [hq, ite_true]
    decide
  · by_cases hn : a = '\n' <;> simp [hq, hn]
    exact fun hh => hn hh.symm

/-- The escape block of any character of the message occurs in the
escaped message as a contiguous infix. -/
theorem escChar_isInfix {a : Char} {m : String} (h : a ∈ m.data) :
    List.IsInfix (escChar a) (escapeMessage m).data := by
  rw [escapeMessage_data]
  obtain ⟨s, t, hst⟩ := List.append_of_mem h
  rw [hst]
  exact ⟨(s.map escChar).flatten, (t.map escChar).flatten, by simp⟩

/-- C6: `escapeMessage` replaces every single quote by the
end-quote/escaped-quote/reopen-quote block and every newline by the
two-character backslash-n sequence (character-wise description of the two
replacement passes); consequently the escaped message never contains a
raw newline, and for a message containing a quote (resp. a newline) the
escaped message contains the quote-escape block (resp. the two-character
newline escape) as a contiguous substring; the string handed to
`sendKeys` by `sendMessage` on its forwarding path is exactly
`escapeMessage message`. -/
theorem c6_escapeMessage_spec :
    (∀ m : String, (escapeMessage m).data = (m.data.map escChar).flatten) ∧
    (∀ m : String, '\n' ∉ (escapeMessage m).data) ∧
    (∀ m : String, '\x27' ∈ m.data →
      List.IsInfix quoteEsc.data (escapeMessage m).data) ∧
    (∀ m : String, '\n' ∈ m.data →
      List.IsInfix ['\\', 'n'] (escapeMessage m).data) ∧
    (∀ (env : SpawnEnv) (st : TmuxState) (name m : String) (pane : PaneInfo),
      name ≠ "" → m ≠ "" → name ∈ availableAgents st →
      getPaneByAgentName st name = some pane →
      (sendMessage env st name m).1 =
        (sendKeys env st pane.id (escapeMessage m)).1) := by
  refine ⟨escapeMessage_data, ?_, ?_, ?_, ?_⟩
  · intro m h
    obtain ⟨l, hl, hmem⟩ := List.mem_flatten.mp ((escapeMessage_data m) ▸ h)
    obtain ⟨a, _, rfl⟩ := List.mem_map.mp hl
    exact newline_not_mem_escChar a hmem
  · intro m h
    have := escChar_isInfix (m := m) (a := '\x27') h
    simpa [escChar] using this
  · intro m h
    have := escChar_isInfix (m := m) (a := '\n') h
    simpa [escChar] using this
  · intro env st name m pane hname hm hmem hpane
    simp [sendMessage, hname, hm, hmem, hpane]

/-- Witness for C6 on the concrete message a-quote-b-newline-c. -/
theorem c6_witness :
    ('\x27' ∈ ("a\x27b\nc" : String).data ∧
      List.IsInfix quoteEsc.data (escapeMessage "a\x27b\nc").data) ∧
    ('\n' ∈ ("a\x27b\nc" : String).data ∧
      List.IsInfix ['\\', 'n'] (escapeMessage "a\x27b\nc").data) ∧
    '\n' ∉ (escapeMessage "a\x27b\nc").data :=
  ⟨⟨by decide, c6_escapeMessage_spec.2.2.1 "a\x27b\nc" (by decide)⟩,
    ⟨by decide, c6_escapeMessage_spec.2.2.2.1 "a\x27b\nc" (by decide)⟩,
    c6_escapeMessage_spec.2.1 "a\x27b\nc"⟩

/-- Membership in the deduplication helper. -/
theorem mem_dedupFirstAux :
    ∀ (l : List String) (seen : List String) (x : String),
      x ∈ dedupFirstAux seen l ↔ x ∈ l ∧ x ∉ seen := by
  intro l
  induction l with
  | nil => intro seen x; simp [dedupFirstAux]
  | cons a as ih =>
    intro seen x
    by_cases ha : a ∈ seen <;>
      simp only [dedupFirstAux, ha, ite_true, ite_false, List.mem_cons, ih]
    · aesop
    · constructor
      · rintro (rfl | ⟨h1, h2⟩)
        · exact ⟨Or.inl rfl, ha⟩
        · simp only [List.mem_cons, not_or] at h2
          exact ⟨Or.inr h1, h2.2⟩
      · rintro ⟨h1 | h1, h2⟩
        · exact Or.inl h1
        · by_cases hxa : x = a
          · exact Or.inl hxa
          · refine Or.inr ⟨h1, ?_⟩
            simp [List.mem_cons, hxa, h2]

/-- Deduplication preserves membership. -/
theorem mem_dedupFirst (l : List String) (x : String) :
    x ∈ dedupFirst l ↔ x ∈ l := by
  rw [dedupFirst, mem_dedupFirstAux]
  simp

/-- C7: sending to a non-empty agent name that is not among the agent
names of the current pane mapping fails with an error that lists exactly
the currently known agent names, and no command is spawned (no keystrokes
are forwarded). -/
theorem c7_sendMessage_unknown_agent (env : SpawnEnv) (st : TmuxState)
    (name msg : String) (hname : name ≠ "") (hmsg : msg ≠ "")
    (habs : ∀ p ∈ getAllPanes st, p.agentName ≠ name) :
    sendMessage env st name msg =
      ([], Except.error (AgentErr.toolFailure
        ("Agent \x22" ++ name ++ "\x22 not found. Available agents: " ++
          String.intercalate ", " (availableAgents st)))) := by
  have hmem : name ∉ availableAgents st := by
    rw [availableAgents, mem_dedupFirst]
    intro hmem
    obtain ⟨p, hp, hpa⟩ := List.mem_map.mp hmem
    exact habs p hp hpa
  simp [sendMessage, hname, hmsg, hmem]

/-- Witness for C7: in the demo state (squad manager/researcher/tester
with researcher removed) sending to "researcher" lists exactly manager
and tester. -/
theorem c7_witness :
    sendMessage envAllOk stDemo "researcher" "hello" =
      ([], Except.error (AgentErr.toolFailure
        ("Agent \x22researcher\x22 not found. Available agents: " ++
          String.intercalate ", " (availableAgents stDemo)))) ∧
    String.intercalate ", " (availableAgents stDemo) = "manager, tester" :=
  ⟨c7_sendMessage_unknown_agent envAllOk stDemo "researcher" "hello"
      (by decide) (by decide) (by decide),
    rfl⟩

/-- A worktree oracle where every creation succeeds. -/
def wtAllOk : WorktreeEnv := fun name => Except.ok ("/worktrees/" ++ name)

/-- A spawn oracle where every command succeeds except attaching to the
demo session. -/
def spawnNoAttach : SpawnEnv := fun args => !(args == attachArgs stDemo)

/-- Counterexample for C3 as stated: with an existing session (the
has-session probe succeeds) but a failing attach, `setupTeam` does not
return success — it returns the attach error — even though the session
was found and the configuration requests isolation for an agent. -/
theorem c3_counterexample :
    spawnNoAttach (hasSessionArgs stDemo) = true ∧
    cfgDemo.agents.any (fun a => a.worktree) = true ∧
    (setupTeam spawnNoAttach wtAllOk stDemo cfgDemo "demo").2.2 =
      Except.error (OrchError.tmuxSetup
        "Tmux setup failed: Failed to attach to existing session") :=
  ⟨rfl, rfl, rfl⟩

/-- C3 (amended): whenever `setupTeam` finds an existing session, the
Isolation Provisioner is never invoked (the `createWorktree` call trace
is empty) and the tmux state is untouched, regardless of how many agents
request isolation; and provided the attach step also succeeds, the call
returns success with `isResumed = true` and an empty `createdWorktrees`
list. -/
theorem c3_resume_no_provisioning (env : SpawnEnv) (wt : WorktreeEnv)
    (st : TmuxState) (cfg : SquadConfig) (sessionName : String)
    (hsess : env (hasSessionArgs st) = true) :
    (setupTeam env wt st cfg sessionName).1 = [] ∧
    (setupTeam env wt st cfg sessionName).2.1 = st ∧
    (env (attachArgs st) = true →
      (setupTeam env wt st cfg sessionName).2.2 =
        Except.ok ⟨sessionName, getAllPanes st, [], true, []⟩) := by
  by_cases hatt : env (attachArgs st) <;>
    simp [setupTeam, checkExistingSession, attachToSession, hsess, hatt]

/-- Witness for C3: a concrete resume of the demo session with a
configuration whose first agent requests isolation. -/
theorem c3_witness :
    (setupTeam envAllOk wtAllOk stDemo cfgDemo "demo").1 = [] ∧
    (setupTeam envAllOk wtAllOk stDemo cfgDemo "demo").2.1 = stDemo ∧
    (setupTeam envAllOk wtAllOk stDemo cfgDemo "demo").2.2 =
      Except.ok ⟨"demo", getAllPanes stDemo, [], true, []⟩ :=
  have h := c3_resume_no_provisioning envAllOk wtAllOk stDemo cfgDemo "demo" rfl
  ⟨h.1, h.2.1, h.2.2 rfl⟩

/-- Every error produced by the worktree-creation loop is a
`WorktreeSetupError`. -/
theorem setupWorktreesLoop_error_shape (wt : WorktreeEnv) :
    ∀ (agents : List Agent) (e : OrchError),
      (setupWorktreesLoop wt agents).2 = Except.error e →
      ∃ msg, e = OrchError.worktreeSetup msg := by
  intro agents
  induction agents with
  | nil => intro e h; simp [setupWorktreesLoop] at h
  | cons a rest ih =>
    intro e h
    simp only [setupWorktreesLoop] at h
    cases hwa : wt a.name with
    | error m =>
      rw [hwa] at h
      simp only at h
      cases h
      exact ⟨_, rfl⟩
    | ok path =>
      rw [hwa] at h
      simp only at h
      cases hr : (setupWorktreesLoop wt rest).2 with
      | error e2 =>
        rw [hr] at h
        simp only at h
        cases h
        exact ih _ hr
      | ok ps =>
        rw [hr] at h
        simp only at h
        cases h

/-- Every error produced by `setupWorktrees` is a `WorktreeSetupError`. -/
theorem setupWorktrees_error_shape (wt : WorktreeEnv) (agents : List Agent)
    (e : OrchError) :
    (setupWorktrees wt agents).2 = Except.error e →
    ∃ msg, e = OrchError.worktreeSetup msg := by
  unfold setupWorktrees
  by_cases h : (agents.filter (fun a => a.worktree)).isEmpty
  · simp [h]
  · simp only [h, ite_false]
    exact setupWorktreesLoop_error_shape wt _ e

/-- C10: `checkExistingSession` never returns an error result — every
outcome of the underlying probe, including probe failure, is wrapped in a
success value (probe failure reads as "session does not exist") — and
consequently the session-check error branch of `setupTeam` is unreachable
when composed with this embedded `TmuxManager`: no run of `setupTeam`
ever produces the session-check error. -/
theorem c10_sessionCheck_never_errors :
    (∀ (env : SpawnEnv) (st : TmuxState),
      (checkExistingSession env st).2 = Except.ok (env (hasSessionArgs st))) ∧
    (∀ (env : SpawnEnv) (wt : WorktreeEnv) (st : TmuxState)
        (cfg : SquadConfig) (sessionName : String),
      (setupTeam env wt st cfg sessionName).2.2 ≠
        Except.error (OrchError.tmuxSetup
          "Tmux setup failed: Failed to check existing tmux session")) := by
  refine ⟨fun env st => rfl, ?_⟩
  intro env wt st cfg sn
  by_cases hsess : env (hasSessionArgs st)
  · by_cases hatt : env (attachArgs st) <;>
      simp [setupTeam, checkExistingSession, attachToSession, hsess, hatt]
  · cases hw : (setupWorktrees wt cfg.agents).2 with
    | error e =>
      obtain ⟨msg, rfl⟩ := setupWorktrees_error_shape wt cfg.agents e hw
      simp [setupTeam, checkExistingSession, hsess, hw]
    | ok created =>
      cases hl : (createLayout env st cfg).2.2 with
      | error e2 => simp [setupTeam, checkExistingSession, hsess, hw, hl]
      | ok panes => simp [setupTeam, checkExistingSession, hsess, hw, hl]

/-- Witness for C10: even when every spawned command fails, the probe
reports "no session" as a success value, and a full `setupTeam` run does
not produce the session-check error. -/
theorem c10_witness :
    (checkExistingSession envAllFail stDemo).2 =
      Except.ok (envAllFail (hasSessionArgs stDemo)) ∧
    (setupTeam envAllFail wtAllOk stDemo cfgDemo "demo").2.2 ≠
      Except.error (OrchError.tmuxSetup
        "Tmux setup failed: Failed to check existing tmux session") :=
  ⟨c10_sessionCheck_never_errors.1 envAllFail stDemo,
    c10_sessionCheck_never_errors.2 envAllFail wtAllOk stDemo cfgDemo "demo"⟩

end Phantom
